import Mathlib

/-!
Shallow embedding of the Pomi GBA Pomodoro timer core (src/src/main.cpp).

The embedding models the timer state machine: the `PomodoroContext` record,
the `changeState`, `updateTimer` and `handleInput` functions, and the startup
initialisation performed in `main`.  Hardware collaborators are passed in
explicitly: the keypad edge flags become a `Keypad` record of booleans, the
hardware timer reading `timer.elapsed_ticks()` becomes an integer argument
`currentTicks`, and the Butano constant `bn::timers::ticks_per_second()`
becomes an integer argument `tps`.  C++ `int` arithmetic is modelled by `Int`
(no overflow occurs in the reachable range); C++ integer division and modulo
truncate toward zero, which is `Int.tdiv` / `Int.tmod`.  Rendering and sound
(`renderPomodoro`, `playSound`, ...) do not touch the timer state and are
omitted.
-/

/-- The PomodoroState enum of main.cpp. -/
inductive PomodoroState where
  | IDLE
  | WORK
  | SHORT_BREAK
  | LONG_BREAK
  | CONFIG
deriving DecidableEq, Repr

/-- The PomodoroConfig struct of main.cpp (display colors omitted: they are
never read by the timer logic). -/
structure PomodoroConfig where
  workTime : Int := 25 * 60
  shortBreakTime : Int := 5 * 60
  longBreakTime : Int := 15 * 60
  sessionsPerSet : Int := 4
deriving DecidableEq, Repr

/-- The PomodoroContext struct of main.cpp.  The `bn::timer` member is the
hardware counter; its readings enter the model as explicit arguments, so only
the stored anchor `lastTicks` appears here. -/
structure PomodoroContext where
  config : PomodoroConfig := {}
  state : PomodoroState := .IDLE
  secondsRemaining : Int := 0
  completedSessions : Int := 0
  completedSets : Int := 0
  timerActive : Bool := false
  configSelection : Int := 0
  lastTicks : Int := 0
deriving DecidableEq, Repr

/-- The keypad edge flags read by handleInput (one boolean per
bn::keypad::*_pressed() call). -/
structure Keypad where
  up_pressed : Bool := false
  down_pressed : Bool := false
  left_pressed : Bool := false
  right_pressed : Bool := false
  a_pressed : Bool := false
  b_pressed : Bool := false
  start_pressed : Bool := false
  select_pressed : Bool := false
deriving DecidableEq, Repr

/-- changeState (main.cpp lines 423-463): set the new state, drop
timerActive on a real state change into a non-CONFIG state, and load
secondsRemaining from the configured duration of the new state (workTime for
IDLE and CONFIG).  playSound is a stub and is omitted. -/
def changeState (ctx : PomodoroContext) (newState : PomodoroState) : PomodoroContext :=
  let oldState := ctx.state
  let ctx := { ctx with state := newState }
  let ctx :=
    if oldState ≠ newState ∧ newState ≠ PomodoroState.CONFIG then
      { ctx with timerActive := false }
    else ctx
  { ctx with
      secondsRemaining :=
        match newState with
        | .WORK => ctx.config.workTime
        | .SHORT_BREAK => ctx.config.shortBreakTime
        | .LONG_BREAK => ctx.config.longBreakTime
        | _ => ctx.config.workTime }

/-- updateTimer (main.cpp lines 121-170): when the timer is active and at
least one whole second of hardware ticks has elapsed since `lastTicks`,
subtract the elapsed whole seconds, move the anchor to `currentTicks`, and on
reaching zero clamp to zero, deactivate, and fire the completion transition
(WORK counts a session and goes to a break, breaks go back to WORK). -/
def updateTimer (ctx : PomodoroContext) (currentTicks tps : Int) : PomodoroContext :=
  if ctx.timerActive = false then ctx
  else
    let elapsedTicks := currentTicks - ctx.lastTicks
    if tps ≤ elapsedTicks then
      let elapsedSeconds := Int.tdiv elapsedTicks tps
      let ctx := { ctx with
                    secondsRemaining := ctx.secondsRemaining - elapsedSeconds,
                    lastTicks := currentTicks }
      if ctx.secondsRemaining ≤ 0 then
        let ctx := { ctx with timerActive := false, secondsRemaining := 0 }
        if ctx.state = PomodoroState.WORK then
          let ctx := { ctx with completedSessions := ctx.completedSessions + 1 }
          if Int.tmod ctx.completedSessions ctx.config.sessionsPerSet = 0 then
            changeState { ctx with completedSets := ctx.completedSets + 1 }
              PomodoroState.LONG_BREAK
          else
            changeState ctx PomodoroState.SHORT_BREAK
        else if ctx.state = PomodoroState.SHORT_BREAK ∨
                ctx.state = PomodoroState.LONG_BREAK then
          changeState ctx PomodoroState.WORK
        else ctx
      else ctx
    else ctx

/-- The cursor-navigation block of handleInput's CONFIG branch (main.cpp
lines 178-192): up moves the selection cursor towards 0 and wraps to 3, down
moves it towards 3 and wraps to 0. -/
def configNav (ctx : PomodoroContext) (kp : Keypad) : PomodoroContext :=
  let ctx :=
    if kp.up_pressed then
      if 0 < ctx.configSelection then { ctx with configSelection := ctx.configSelection - 1 }
      else { ctx with configSelection := 3 }
    else ctx
  if kp.down_pressed then
    if ctx.configSelection < 3 then { ctx with configSelection := ctx.configSelection + 1 }
    else { ctx with configSelection := 0 }
  else ctx

/-- The value-adjustment switch of handleInput's CONFIG branch (main.cpp
lines 204-230): the selected duration moves by change*60 with floor 60,
sessionsPerSet moves by change with floor 1, any other selection value is
ignored. -/
def applyConfigChange (ctx : PomodoroContext) (change : Int) : PomodoroContext :=
  if ctx.configSelection = 0 then
    let w := ctx.config.workTime + change * 60
    { ctx with config := { ctx.config with workTime := if w < 60 then 60 else w } }
  else if ctx.configSelection = 1 then
    let s := ctx.config.shortBreakTime + change * 60
    { ctx with config := { ctx.config with shortBreakTime := if s < 60 then 60 else s } }
  else if ctx.configSelection = 2 then
    let l := ctx.config.longBreakTime + change * 60
    { ctx with config := { ctx.config with longBreakTime := if l < 60 then 60 else l } }
  else if ctx.configSelection = 3 then
    let n := ctx.config.sessionsPerSet + change
    { ctx with config := { ctx.config with sessionsPerSet := if n < 1 then 1 else n } }
  else ctx

/-- handleInput, CONFIG branch (main.cpp lines 174-236): navigate the cursor,
compute the adjustment direction from left/right (when both are pressed the
later `right` assignment wins), apply it if nonzero, and leave to IDLE on B
or SELECT. -/
def handleInputConfig (ctx : PomodoroContext) (kp : Keypad) : PomodoroContext :=
  let ctx := configNav ctx kp
  let change : Int := if kp.right_pressed then 1 else if kp.left_pressed then -1 else 0
  let ctx := if change ≠ 0 then applyConfigChange ctx change else ctx
  if kp.b_pressed ∨ kp.select_pressed then changeState ctx PomodoroState.IDLE else ctx

/-- The A-button block of handleInput's normal branch (main.cpp lines
241-248): toggle timerActive and, when it becomes active, re-anchor
lastTicks at the current hardware reading. -/
def toggleTimer (ctx : PomodoroContext) (currentTicks : Int) : PomodoroContext :=
  let ctx := { ctx with timerActive := !ctx.timerActive }
  if ctx.timerActive then { ctx with lastTicks := currentTicks } else ctx

/-- The B-button block of handleInput's normal branch (main.cpp lines
251-266): deactivate, re-anchor lastTicks, and restore secondsRemaining to
the current state's configured duration (workTime outside the three concrete
phases). -/
def resetTimer (ctx : PomodoroContext) (currentTicks : Int) : PomodoroContext :=
  let ctx := { ctx with timerActive := false, lastTicks := currentTicks }
  { ctx with
      secondsRemaining :=
        if ctx.state = PomodoroState.WORK then ctx.config.workTime
        else if ctx.state = PomodoroState.SHORT_BREAK then ctx.config.shortBreakTime
        else if ctx.state = PomodoroState.LONG_BREAK then ctx.config.longBreakTime
        else ctx.config.workTime }

/-- handleInput, normal-mode branch (main.cpp lines 237-273): A toggles the
timer, B resets it, SELECT deactivates and enters CONFIG.  The start button
is never read anywhere in handleInput. -/
def handleInputNormal (ctx : PomodoroContext) (kp : Keypad) (currentTicks : Int) :
    PomodoroContext :=
  let ctx := if kp.a_pressed then toggleTimer ctx currentTicks else ctx
  let ctx := if kp.b_pressed then resetTimer ctx currentTicks else ctx
  if kp.select_pressed then
    changeState { ctx with timerActive := false } PomodoroState.CONFIG
  else ctx

/-- handleInput (main.cpp lines 173-274): dispatch on whether the machine is
in CONFIG mode. -/
def handleInput (ctx : PomodoroContext) (kp : Keypad) (currentTicks : Int) : PomodoroContext :=
  if ctx.state = PomodoroState.CONFIG then handleInputConfig ctx kp
  else handleInputNormal ctx kp currentTicks

/-- The context after the initialisation in main (lines 92-94): default
construction, then secondsRemaining loaded with workTime and the state forced
to WORK. -/
def initialContext : PomodoroContext :=
  { config := {}
    state := .WORK
    secondsRemaining := (25 : Int) * 60
    completedSessions := 0
    completedSets := 0
    timerActive := false
    configSelection := 0
    lastTicks := 0 }

/-- The states the main loop (lines 97-117) can put the context in: the
initial context, closed under one handleInput call with any keypad reading
and one updateTimer call with any hardware reading. -/
inductive Reachable : PomodoroContext → Prop where
  | init : Reachable initialContext
  | input (kp : Keypad) (t : Int) {ctx : PomodoroContext} :
      Reachable ctx → Reachable (handleInput ctx kp t)
  | tick (t tps : Int) {ctx : PomodoroContext} :
      Reachable ctx → Reachable (updateTimer ctx t tps)

/-- The configured duration the code associates with each state when
restoring secondsRemaining (the switch in changeState and the if-chain of the
B-button reset agree on it). -/
def stateDuration (c : PomodoroConfig) : PomodoroState → Int
  | .WORK => c.workTime
  | .SHORT_BREAK => c.shortBreakTime
  | .LONG_BREAK => c.longBreakTime
  | _ => c.workTime

/-- The combined state invariant maintained by the loop: nonnegative
countdown and counters, configured durations at least a minute,
sessionsPerSet at least one, and the timer never active in CONFIG mode. -/
def CtxInv (ctx : PomodoroContext) : Prop :=
  0 ≤ ctx.secondsRemaining ∧
  60 ≤ ctx.config.workTime ∧
  60 ≤ ctx.config.shortBreakTime ∧
  60 ≤ ctx.config.longBreakTime ∧
  1 ≤ ctx.config.sessionsPerSet ∧
  0 ≤ ctx.completedSessions ∧
  0 ≤ ctx.completedSets ∧
  (ctx.state = PomodoroState.CONFIG → ctx.timerActive = false)

@[simp] theorem changeState_config (ctx : PomodoroContext) (s : PomodoroState) :
    (changeState ctx s).config = ctx.config := by
  cases s <;> simp only [changeState] <;> split_ifs <;> rfl

@[simp] theorem changeState_state (ctx : PomodoroContext) (s : PomodoroState) :
    (changeState ctx s).state = s := by
  cases s <;> simp only [changeState] <;> split_ifs <;> rfl

@[simp] theorem changeState_secondsRemaining (ctx : PomodoroContext) (s : PomodoroState) :
    (changeState ctx s).secondsRemaining = stateDuration ctx.config s := by
  cases s <;> simp only [changeState, stateDuration] <;> split_ifs <;> rfl

@[simp] theorem changeState_completedSessions (ctx : PomodoroContext) (s : PomodoroState) :
    (changeState ctx s).completedSessions = ctx.completedSessions := by
  cases s <;> simp only [changeState] <;> split_ifs <;> rfl

@[simp] theorem changeState_completedSets (ctx : PomodoroContext) (s : PomodoroState) :
    (changeState ctx s).completedSets = ctx.completedSets := by
  cases s <;> simp only [changeState] <;> split_ifs <;> rfl

@[simp] theorem changeState_configSelection (ctx : PomodoroContext) (s : PomodoroState) :
    (changeState ctx s).configSelection = ctx.configSelection := by
  cases s <;> simp only [changeState] <;> split_ifs <;> rfl

@[simp] theorem changeState_lastTicks (ctx : PomodoroContext) (s : PomodoroState) :
    (changeState ctx s).lastTicks = ctx.lastTicks := by
  cases s <;> simp only [changeState] <;> split_ifs <;> rfl

theorem changeState_timerActive (ctx : PomodoroContext) (s : PomodoroState) :
    (changeState ctx s).timerActive =
      if ctx.state ≠ s ∧ s ≠ PomodoroState.CONFIG then false else ctx.timerActive := by
  cases s <;> simp only [changeState] <;> split_ifs <;> rfl

theorem ctxInv_changeState {ctx : PomodoroContext} {s : PomodoroState}
    (h : CtxInv ctx) (hc : s = PomodoroState.CONFIG → ctx.timerActive = false) :
    CtxInv (changeState ctx s) := by
  obtain ⟨h1, h2, h3, h4, h5, h6, h7, h8⟩ := h
  unfold CtxInv
  rw [changeState_config, changeState_secondsRemaining, changeState_completedSessions,
    changeState_completedSets, changeState_state, changeState_timerActive]
  cases s <;> simp_all [stateDuration] <;> omega

theorem ctxInv_updateTimer {ctx : PomodoroContext} (h : CtxInv ctx) (t tps : Int) :
    CtxInv (updateTimer ctx t tps) := by
  obtain ⟨h1, h2, h3, h4, h5, h6, h7, h8⟩ := h
  simp only [updateTimer]
  split_ifs <;>
    first
      | exact ⟨h1, h2, h3, h4, h5, h6, h7, h8⟩
      | (refine ctxInv_changeState ⟨?_, ?_, ?_, ?_, ?_, ?_, ?_, ?_⟩ (by simp) <;>
          simp_all <;> omega)
      | (refine ⟨?_, ?_, ?_, ?_, ?_, ?_, ?_, ?_⟩ <;> simp_all <;> omega)


theorem configNav_eq (ctx : PomodoroContext) (kp : Keypad) :
    ∃ sel : Int, configNav ctx kp = { ctx with configSelection := sel } := by
  simp only [configNav]
  split_ifs <;> exact ⟨_, rfl⟩

theorem applyConfigChange_eq (ctx : PomodoroContext) (c : Int) :
    ∃ cfg : PomodoroConfig, applyConfigChange ctx c = { ctx with config := cfg } := by
  simp only [applyConfigChange]
  split_ifs <;> exact ⟨_, rfl⟩

theorem applyConfigChange_bounds {ctx : PomodoroContext} (c : Int)
    (h2 : 60 ≤ ctx.config.workTime) (h3 : 60 ≤ ctx.config.shortBreakTime)
    (h4 : 60 ≤ ctx.config.longBreakTime) (h5 : 1 ≤ ctx.config.sessionsPerSet) :
    60 ≤ (applyConfigChange ctx c).config.workTime ∧
    60 ≤ (applyConfigChange ctx c).config.shortBreakTime ∧
    60 ≤ (applyConfigChange ctx c).config.longBreakTime ∧
    1 ≤ (applyConfigChange ctx c).config.sessionsPerSet := by
  simp only [applyConfigChange]
  split_ifs <;> refine ⟨?_, ?_, ?_, ?_⟩ <;> (try simp) <;> omega

theorem ctxInv_handleInputConfig {ctx : PomodoroContext} (h : CtxInv ctx) (kp : Keypad) :
    CtxInv (handleInputConfig ctx kp) := by
  obtain ⟨h1, h2, h3, h4, h5, h6, h7, h8⟩ := h
  simp only [handleInputConfig]
  obtain ⟨sel, hnav⟩ := configNav_eq ctx kp
  rw [hnav]
  set c : Int := if kp.right_pressed then 1 else if kp.left_pressed then -1 else 0 with hc
  have key : CtxInv (if c ≠ 0 then applyConfigChange { ctx with configSelection := sel } c
      else { ctx with configSelection := sel }) := by
    split_ifs with hne
    · obtain ⟨cfg, hadj⟩ := applyConfigChange_eq { ctx with configSelection := sel } c
      obtain ⟨b2, b3, b4, b5⟩ :=
        @applyConfigChange_bounds { ctx with configSelection := sel } c h2 h3 h4 h5
      rw [hadj] at b2 b3 b4 b5 ⊢
      exact ⟨h1, b2, b3, b4, b5, h6, h7, h8⟩
    · exact ⟨h1, h2, h3, h4, h5, h6, h7, h8⟩
  generalize hX : (if c ≠ 0 then applyConfigChange { ctx with configSelection := sel } c
      else { ctx with configSelection := sel }) = X at key ⊢
  split_ifs with hexit
  · exact ctxInv_changeState key (by simp)
  · exact key

theorem toggleTimer_eq (ctx : PomodoroContext) (t : Int) :
    toggleTimer ctx t =
      { ctx with
          timerActive := !ctx.timerActive
          lastTicks := if !ctx.timerActive then t else ctx.lastTicks } := by
  cases hb : ctx.timerActive <;> simp [toggleTimer, hb]

theorem resetTimer_eq (ctx : PomodoroContext) (t : Int) :
    resetTimer ctx t =
      { ctx with
          timerActive := false
          lastTicks := t
          secondsRemaining := stateDuration ctx.config ctx.state } := by
  simp only [resetTimer]
  cases hs : ctx.state <;> simp_all [stateDuration]

theorem ctxInv_handleInputNormal {ctx : PomodoroContext}
    (h : CtxInv ctx) (hst : ctx.state ≠ PomodoroState.CONFIG) (kp : Keypad) (t : Int) :
    CtxInv (handleInputNormal ctx kp t) := by
  obtain ⟨h1, h2, h3, h4, h5, h6, h7, h8⟩ := h
  simp only [handleInputNormal, toggleTimer_eq, resetTimer_eq]
  have hdur : 0 ≤ stateDuration ctx.config ctx.state := by
    cases ctx.state <;> simp [stateDuration] <;> omega
  split_ifs <;>
    first
      | exact ⟨h1, h2, h3, h4, h5, h6, h7, h8⟩
      | (refine ctxInv_changeState ⟨?_, ?_, ?_, ?_, ?_, ?_, ?_, ?_⟩ (by simp) <;>
          simp_all)
      | (refine ⟨?_, ?_, ?_, ?_, ?_, ?_, ?_, ?_⟩ <;> simp_all)

theorem ctxInv_handleInput {ctx : PomodoroContext} (h : CtxInv ctx) (kp : Keypad) (t : Int) :
    CtxInv (handleInput ctx kp t) := by
  by_cases hst : ctx.state = PomodoroState.CONFIG
  · simpa [handleInput, hst] using ctxInv_handleInputConfig h kp
  · simpa [handleInput, hst] using ctxInv_handleInputNormal h hst kp t

theorem ctxInv_initialContext : CtxInv initialContext := by
  refine ⟨?_, ?_, ?_, ?_, ?_, ?_, ?_, ?_⟩ <;> simp [initialContext]

theorem ctxInv_reachable {ctx : PomodoroContext} (h : Reachable ctx) : CtxInv ctx := by
  induction h with
  | init => exact ctxInv_initialContext
  | input kp t _ ih => exact ctxInv_handleInput ih kp t
  | tick t tps _ ih => exact ctxInv_updateTimer ih t tps

/-- A running IDLE context used to exercise the countdown bookkeeping: 100
seconds on the clock, tick anchor at 0. -/
def tickScenarioCtx : PomodoroContext :=
  { initialContext with
      state := PomodoroState.IDLE
      timerActive := true
      secondsRemaining := 100 }

/-- Claim C1 is false on the code: updateTimer moves the tick anchor all the
way to currentTicks instead of advancing it by elapsedSeconds *
ticksPerSecond.  With ticksPerSecond 60 and observations at ticks 30, 70 and
120 (deltas 30, 40, 50), the anchor lands on 70 rather than 60, the 10-tick
remainder is lost, and the third observation (50 fresh ticks, 60 with the
claimed carry) decrements nothing.  Over twelve observations spaced 70 ticks
apart (840 total ticks, 14 whole seconds) only 12 seconds are decremented, a
drift of 2 units. -/
theorem C1_counterexample :
    (updateTimer (updateTimer tickScenarioCtx 30 60) 70 60).lastTicks = 70 ∧
    (updateTimer (updateTimer tickScenarioCtx 30 60) 70 60).lastTicks ≠ 0 + 1 * 60 ∧
    (updateTimer (updateTimer (updateTimer tickScenarioCtx 30 60) 70 60) 120
        60).secondsRemaining = 99 ∧
    (List.foldl (fun c t => updateTimer c t 60) tickScenarioCtx
        [70, 140, 210, 280, 350, 420, 490, 560, 630, 700, 770, 840]).secondsRemaining = 88 ∧
    Int.tdiv 840 60 = 14 ∧ 100 - 88 + 1 < (14 : Int) := by
  decide

/-- Claim C1 as amended: while running, each countdown update that observes
elapsedTicks at least ticksPerSecond decrements secondsRemaining by
elapsedTicks / ticksPerSecond (integer division, here below zero) and moves
the tick anchor all the way to the current hardware tick count, so the
fractional-tick remainder is discarded rather than carried forward; an
observation with fewer than ticksPerSecond elapsed ticks changes nothing.
With ticksPerSecond 60, consecutive deltas of 30 then 40 decrement exactly
one second, and the anchor lands on the full 70 ticks (no 10-tick remainder
is retained). -/
theorem C1_update_discards_remainder :
    (∀ (ctx : PomodoroContext) (t tps : Int),
      ctx.timerActive = true →
      tps ≤ t - ctx.lastTicks →
      0 < ctx.secondsRemaining - Int.tdiv (t - ctx.lastTicks) tps →
      (updateTimer ctx t tps).secondsRemaining =
          ctx.secondsRemaining - Int.tdiv (t - ctx.lastTicks) tps ∧
        (updateTimer ctx t tps).lastTicks = t) ∧
    (∀ (ctx : PomodoroContext) (t tps : Int),
      ctx.timerActive = true →
      t - ctx.lastTicks < tps →
      updateTimer ctx t tps = ctx) := by
  constructor
  · intro ctx t tps hact helapsed hpos
    simp only [updateTimer, hact]
    rw [if_neg (by simp), if_pos helapsed]
    split_ifs <;>
      first
        | exact ⟨rfl, rfl⟩
        | omega
  · intro ctx t tps hact hlt
    simp only [updateTimer, hact]
    rw [if_neg (by simp), if_neg (by omega)]

/-- Claim C1 witness: the amended statement evaluated on the 30-then-40
scenario with ticksPerSecond 60 - the first observation changes nothing, the
second decrements exactly one second (100 to 99) and parks the anchor at 70. -/
theorem C1_update_discards_remainder_witness :
    updateTimer tickScenarioCtx 30 60 = tickScenarioCtx ∧
    (updateTimer (updateTimer tickScenarioCtx 30 60) 70 60).secondsRemaining = 99 ∧
    (updateTimer (updateTimer tickScenarioCtx 30 60) 70 60).lastTicks = 70 := by
  have h1 := C1_update_discards_remainder.2 tickScenarioCtx 30 60 (by decide) (by decide)
  have h2 := C1_update_discards_remainder.1 tickScenarioCtx 70 60 (by decide) (by decide)
    (by decide)
  refine ⟨h1, ?_, ?_⟩
  · rw [h1, h2.1]
    decide
  · rw [h1, h2.2]

/-- Claim C2 is false on the code: handleInput never reads the start button,
so there is no Skip command.  Pressing Start in the Work phase with 1500
seconds remaining leaves the context completely unchanged - secondsRemaining
stays 1500 instead of being forced to 0, and no phase-completion transition
(which would land in SHORT_BREAK with 300 seconds) takes place. -/
theorem C2_counterexample :
    handleInput { initialContext with secondsRemaining := 1500 }
        { start_pressed := true } 0 =
      { initialContext with secondsRemaining := 1500 } ∧
    (handleInput { initialContext with secondsRemaining := 1500 }
        { start_pressed := true } 0).state = PomodoroState.WORK ∧
    (handleInput { initialContext with secondsRemaining := 1500 }
        { start_pressed := true } 0).secondsRemaining = 1500 := by
  decide

/-- Claim C2 as amended: a Start press on its own is ignored in every phase -
handleInput never reads the start button, so no Skip command exists and no
input forces an immediate phase completion. -/
theorem C2_start_button_ignored (ctx : PomodoroContext) (t : Int) :
    handleInput ctx { start_pressed := true } t = ctx := by
  by_cases hst : ctx.state = PomodoroState.CONFIG <;>
    simp [handleInput, hst, handleInputConfig, handleInputNormal, configNav]

/-- Claim C3 is false on the code: the A button in the Idle phase toggles
timerActive without changing the phase, so the machine does not move to
Work - it stays in IDLE with secondsRemaining untouched (1500 here, the
display default, not reloaded from workSeconds it already shows). -/
theorem C3_counterexample :
    (handleInput { initialContext with state := PomodoroState.IDLE }
        { a_pressed := true } 77).state = PomodoroState.IDLE ∧
    (handleInput { initialContext with state := PomodoroState.IDLE }
        { a_pressed := true } 77).state ≠ PomodoroState.WORK ∧
    handleInput { initialContext with state := PomodoroState.IDLE }
        { a_pressed := true } 77 =
      { initialContext with
          state := PomodoroState.IDLE
          timerActive := true
          lastTicks := 77 } := by
  decide

/-- Claim C3 as amended: in the Idle phase with the timer paused, a
ToggleRun command (A button) sets running to true and resets the tick anchor
to the current hardware tick count, but the phase remains Idle and
secondsRemaining is left unchanged - no transition to Work occurs. -/
theorem C3_toggle_in_idle (ctx : PomodoroContext) (t : Int)
    (hst : ctx.state = PomodoroState.IDLE)
    (hact : ctx.timerActive = false) :
    handleInput ctx { a_pressed := true } t =
      { ctx with timerActive := true, lastTicks := t } := by
  simp [handleInput, hst, handleInputNormal, toggleTimer_eq, hact]

/-- Claim C3 witness: the amended statement on the concrete Idle startup
context - pressing A at hardware tick 77 activates the timer and anchors it
at 77, staying in IDLE. -/
theorem C3_toggle_in_idle_witness :
    handleInput { initialContext with state := PomodoroState.IDLE }
        { a_pressed := true } 77 =
      { initialContext with
          state := PomodoroState.IDLE
          timerActive := true
          lastTicks := 77 } := by
  exact C3_toggle_in_idle { initialContext with state := PomodoroState.IDLE } 77
    (by decide) (by decide)

/-- Claim C4: whenever the countdown reaches 0 in the Work phase,
completedSessions is incremented; if the incremented count is a multiple of
sessionsPerSet (C++ % is truncating modulo, Int.tmod) then completedSets is
incremented and the phase becomes LONG_BREAK, otherwise SHORT_BREAK; running
is set to false on completion; and with sessionsPerSet = 4 the completion
lands in LONG_BREAK exactly when the incremented count is a multiple of 4. -/
theorem C4_work_completion (ctx : PomodoroContext) (t tps : Int)
    (hact : ctx.timerActive = true)
    (hst : ctx.state = PomodoroState.WORK)
    (helapsed : tps ≤ t - ctx.lastTicks)
    (hdone : ctx.secondsRemaining - Int.tdiv (t - ctx.lastTicks) tps ≤ 0) :
    (updateTimer ctx t tps).completedSessions = ctx.completedSessions + 1 ∧
    (updateTimer ctx t tps).timerActive = false ∧
    (Int.tmod (ctx.completedSessions + 1) ctx.config.sessionsPerSet = 0 →
      (updateTimer ctx t tps).completedSets = ctx.completedSets + 1 ∧
      (updateTimer ctx t tps).state = PomodoroState.LONG_BREAK) ∧
    (Int.tmod (ctx.completedSessions + 1) ctx.config.sessionsPerSet ≠ 0 →
      (updateTimer ctx t tps).completedSets = ctx.completedSets ∧
      (updateTimer ctx t tps).state = PomodoroState.SHORT_BREAK) ∧
    (ctx.config.sessionsPerSet = 4 →
      ((updateTimer ctx t tps).state = PomodoroState.LONG_BREAK ↔
        Int.tmod (ctx.completedSessions + 1) 4 = 0)) := by
  have key : updateTimer ctx t tps =
      if Int.tmod (ctx.completedSessions + 1) ctx.config.sessionsPerSet = 0 then
        changeState
          { ctx with
              secondsRemaining := 0
              lastTicks := t
              timerActive := false
              completedSessions := ctx.completedSessions + 1
              completedSets := ctx.completedSets + 1 }
          PomodoroState.LONG_BREAK
      else
        changeState
          { ctx with
              secondsRemaining := 0
              lastTicks := t
              timerActive := false
              completedSessions := ctx.completedSessions + 1 }
          PomodoroState.SHORT_BREAK := by
    simp only [updateTimer, hact]
    rw [if_neg (by simp), if_pos helapsed]
    split_ifs <;> simp_all
  by_cases hmod : Int.tmod (ctx.completedSessions + 1) ctx.config.sessionsPerSet = 0
  · rw [key, if_pos hmod]
    refine ⟨by simp, by simp [changeState_timerActive], fun _ => ⟨by simp, by simp⟩,
      fun h => absurd hmod h, fun h4 => ?_⟩
    rw [h4] at hmod
    simp [hmod]
  · rw [key, if_neg hmod]
    refine ⟨by simp, by simp [changeState_timerActive], fun h => absurd h hmod,
      fun _ => ⟨by simp, by simp⟩, fun h4 => ?_⟩
    rw [h4] at hmod
    simp [hmod]

/-- Claim C4 witness: a running Work context one second from finishing with three
sessions already completed and sessionsPerSet 4 - the fourth completion
increments the set counter and lands in LONG_BREAK with the timer paused. -/
theorem C4_work_completion_witness :
    (updateTimer
        { initialContext with timerActive := true, secondsRemaining := 1, completedSessions := 3 }
        60 60).completedSessions = 4 ∧
    (updateTimer
        { initialContext with timerActive := true, secondsRemaining := 1, completedSessions := 3 }
        60 60).timerActive = false ∧
    (updateTimer
        { initialContext with timerActive := true, secondsRemaining := 1, completedSessions := 3 }
        60 60).completedSets = 1 ∧
    (updateTimer
        { initialContext with timerActive := true, secondsRemaining := 1, completedSessions := 3 }
        60 60).state = PomodoroState.LONG_BREAK := by
  have h := C4_work_completion
    { initialContext with timerActive := true, secondsRemaining := 1, completedSessions := 3 }
    60 60 (by decide) (by decide) (by decide) (by decide)
  obtain ⟨h1, h2, h3, _, _⟩ := h
  obtain ⟨h4, h5⟩ := h3 (by decide)
  exact ⟨by rw [h1]; decide, h2, by rw [h4]; decide, h5⟩

/-- Claim C5: changeState, the single function performing every phase
transition, sets secondsRemaining to the entered phase's configured duration:
workTime for WORK, shortBreakTime for SHORT_BREAK, longBreakTime for
LONG_BREAK, and workTime (the display default) for IDLE and CONFIG; the
startup initialisation in main agrees (WORK with workTime loaded). -/
theorem C5_entry_duration (ctx : PomodoroContext) :
    (changeState ctx PomodoroState.WORK).secondsRemaining = ctx.config.workTime ∧
    (changeState ctx PomodoroState.SHORT_BREAK).secondsRemaining =
      ctx.config.shortBreakTime ∧
    (changeState ctx PomodoroState.LONG_BREAK).secondsRemaining =
      ctx.config.longBreakTime ∧
    (changeState ctx PomodoroState.IDLE).secondsRemaining = ctx.config.workTime ∧
    (changeState ctx PomodoroState.CONFIG).secondsRemaining = ctx.config.workTime ∧
    initialContext.state = PomodoroState.WORK ∧
    initialContext.secondsRemaining = initialContext.config.workTime := by
  refine ⟨?_, ?_, ?_, ?_, ?_, by decide, by decide⟩ <;> simp [stateDuration]

/-- Claim C6: in every state the main loop can reach, secondsRemaining is
nonnegative (first part), and when an active countdown update underflows in
a phase without a completion transition (IDLE or CONFIG) the value is
clamped to exactly 0 (second part; in WORK and the break phases the
completion transition then reloads the next phase's duration, which claim C5
shows is the configured value). -/
theorem C6_seconds_nonnegative :
    (∀ ctx : PomodoroContext, Reachable ctx → 0 ≤ ctx.secondsRemaining) ∧
    (∀ (ctx : PomodoroContext) (t tps : Int),
      ctx.timerActive = true →
      tps ≤ t - ctx.lastTicks →
      ctx.secondsRemaining - Int.tdiv (t - ctx.lastTicks) tps ≤ 0 →
      (ctx.state = PomodoroState.IDLE ∨ ctx.state = PomodoroState.CONFIG) →
      (updateTimer ctx t tps).secondsRemaining = 0) := by
  constructor
  · intro ctx h
    exact (ctxInv_reachable h).1
  · intro ctx t tps hact helapsed hdone hst
    simp only [updateTimer, hact]
    rw [if_neg (by simp), if_pos helapsed, if_pos (by simpa using hdone)]
    rcases hst with hst | hst <;>
      rw [if_neg (by simp [hst]), if_neg (by simp [hst])]

/-- Claim C6 witness: both parts at concrete inputs - the startup context is
reachable with 1500 nonnegative seconds, and a running IDLE context at 1
second with 2 whole seconds elapsed is clamped to exactly 0. -/
theorem C6_seconds_nonnegative_witness :
    (0 : Int) ≤ initialContext.secondsRemaining ∧
    (updateTimer
        { initialContext with
            state := PomodoroState.IDLE, timerActive := true, secondsRemaining := 1 }
        120 60).secondsRemaining = 0 := by
  exact ⟨C6_seconds_nonnegative.1 initialContext Reachable.init,
    C6_seconds_nonnegative.2
      { initialContext with
          state := PomodoroState.IDLE, timerActive := true, secondsRemaining := 1 }
      120 60 (by decide) (by decide) (by decide) (Or.inl (by decide))⟩

/-- Claim C7: in the CONFIG phase, an adjustment press (left for delta -1,
right for delta +1) adds delta * 60 seconds to the duration field selected
by the cursor with a floor of 60, or delta * 1 to sessionsPerSet with a
floor of 1; an out-of-range adjustment is silently clamped to the floor, so
applying delta -1 when sessionsPerSet is 1 leaves it at 1. -/
theorem C7_config_adjust (ctx : PomodoroContext) (d t : Int)
    (hst : ctx.state = PomodoroState.CONFIG)
    (hd : d = 1 ∨ d = -1) :
    (ctx.configSelection = 0 →
      (handleInput ctx { left_pressed := decide (d < 0), right_pressed := decide (0 < d) }
          t).config.workTime = max 60 (ctx.config.workTime + d * 60)) ∧
    (ctx.configSelection = 1 →
      (handleInput ctx { left_pressed := decide (d < 0), right_pressed := decide (0 < d) }
          t).config.shortBreakTime = max 60 (ctx.config.shortBreakTime + d * 60)) ∧
    (ctx.configSelection = 2 →
      (handleInput ctx { left_pressed := decide (d < 0), right_pressed := decide (0 < d) }
          t).config.longBreakTime = max 60 (ctx.config.longBreakTime + d * 60)) ∧
    (ctx.configSelection = 3 →
      (handleInput ctx { left_pressed := decide (d < 0), right_pressed := decide (0 < d) }
          t).config.sessionsPerSet = max 1 (ctx.config.sessionsPerSet + d)) ∧
    (ctx.configSelection = 3 → ctx.config.sessionsPerSet = 1 → d = -1 →
      (handleInput ctx { left_pressed := decide (d < 0), right_pressed := decide (0 < d) }
          t).config.sessionsPerSet = 1) := by
  rcases hd with hd | hd <;> subst hd <;>
    refine ⟨fun hc => ?_, fun hc => ?_, fun hc => ?_, fun hc => ?_, fun hc h1 _ => ?_⟩ <;>
    simp [handleInput, hst, handleInputConfig, configNav, applyConfigChange, hc] <;>
    omega

/-- Claim C7 witness: in CONFIG with the cursor on sessionsPerSet already at
its floor 1, a left press (delta -1) leaves it at 1. -/
theorem C7_config_adjust_witness :
    (handleInput
        { initialContext with
            state := PomodoroState.CONFIG
            timerActive := false
            configSelection := 3
            config := { initialContext.config with sessionsPerSet := 1 } }
        { left_pressed := decide ((-1 : Int) < 0), right_pressed := decide ((0 : Int) < -1) }
        0).config.sessionsPerSet = 1 := by
  exact (C7_config_adjust
    { initialContext with
        state := PomodoroState.CONFIG
        timerActive := false
        configSelection := 3
        config := { initialContext.config with sessionsPerSet := 1 } }
    (-1) 0 (by decide) (Or.inr rfl)).2.2.2.2 (by decide) (by decide) rfl

/-- Claim C8: in every state the main loop can reach, the running flag is
false whenever the phase is CONFIG - SELECT clears timerActive before
changeState makes the phase CONFIG, and no operation re-activates the timer
while in CONFIG mode. -/
theorem C8_config_never_running (ctx : PomodoroContext) (h : Reachable ctx)
    (hst : ctx.state = PomodoroState.CONFIG) : ctx.timerActive = false := by
  exact (ctxInv_reachable h).2.2.2.2.2.2.2 hst

/-- Claim C8 witness: the reachable state obtained by pressing SELECT at
startup is in CONFIG with the timer inactive. -/
theorem C8_config_never_running_witness :
    (handleInput initialContext { select_pressed := true } 0).timerActive = false := by
  exact C8_config_never_running (handleInput initialContext { select_pressed := true } 0)
    (Reachable.input { select_pressed := true } 0 Reachable.init) (by decide)

/-- Claim C9: a Reset command (B button) in any non-CONFIG phase deactivates
the timer and keeps the current phase, restoring secondsRemaining to the
phase's configured duration (the in-place policy of the two the claim
allows; IDLE restores the workTime display default), leaving the session and
set counters untouched. -/
theorem C9_reset_in_place (ctx : PomodoroContext) (t : Int)
    (hst : ctx.state ≠ PomodoroState.CONFIG) :
    (handleInput ctx { b_pressed := true } t).timerActive = false ∧
    (handleInput ctx { b_pressed := true } t).state = ctx.state ∧
    (handleInput ctx { b_pressed := true } t).secondsRemaining =
      stateDuration ctx.config ctx.state ∧
    (handleInput ctx { b_pressed := true } t).completedSessions = ctx.completedSessions ∧
    (handleInput ctx { b_pressed := true } t).completedSets = ctx.completedSets := by
  simp [handleInput, hst, handleInputNormal, resetTimer_eq]

/-- Claim C9 witness: resetting a running SHORT_BREAK at 7 seconds pauses it
and restores the full 300-second short-break duration in the same phase. -/
theorem C9_reset_in_place_witness :
    (handleInput
        { initialContext with
            state := PomodoroState.SHORT_BREAK, secondsRemaining := 7, timerActive := true }
        { b_pressed := true } 5).timerActive = false ∧
    (handleInput
        { initialContext with
            state := PomodoroState.SHORT_BREAK, secondsRemaining := 7, timerActive := true }
        { b_pressed := true } 5).state = PomodoroState.SHORT_BREAK ∧
    (handleInput
        { initialContext with
            state := PomodoroState.SHORT_BREAK, secondsRemaining := 7, timerActive := true }
        { b_pressed := true } 5).secondsRemaining = 300 := by
  have h := C9_reset_in_place
    { initialContext with
        state := PomodoroState.SHORT_BREAK, secondsRemaining := 7, timerActive := true }
    5 (by decide)
  exact ⟨h.1, by rw [h.2.1], by rw [h.2.2.1]; decide⟩

/-- Claim C10: if an active countdown expires while the phase is IDLE (the A
button in IDLE activates the timer without changing the phase), no
completion transition fires: the phase stays IDLE, secondsRemaining is
clamped to 0, the timer deactivates, and both counters are unchanged. -/
theorem C10_idle_expiry (ctx : PomodoroContext) (t tps : Int)
    (hst : ctx.state = PomodoroState.IDLE)
    (hact : ctx.timerActive = true)
    (helapsed : tps ≤ t - ctx.lastTicks)
    (hdone : ctx.secondsRemaining - Int.tdiv (t - ctx.lastTicks) tps ≤ 0) :
    (updateTimer ctx t tps).state = PomodoroState.IDLE ∧
    (updateTimer ctx t tps).secondsRemaining = 0 ∧
    (updateTimer ctx t tps).timerActive = false ∧
    (updateTimer ctx t tps).completedSessions = ctx.completedSessions ∧
    (updateTimer ctx t tps).completedSets = ctx.completedSets := by
  simp only [updateTimer, hact]
  rw [if_neg (by simp), if_pos helapsed, if_pos (by simpa using hdone),
    if_neg (by simp [hst]), if_neg (by simp [hst])]
  simp [hst]

/-- Claim C10 witness: a running IDLE context with 1 second left and three
completed sessions expires after a whole elapsed second - it stays IDLE at 0
with the timer off and the counters still at 3 and 0. -/
theorem C10_idle_expiry_witness :
    (updateTimer
        { initialContext with
            state := PomodoroState.IDLE, timerActive := true, secondsRemaining := 1,
            completedSessions := 3 }
        60 60).state = PomodoroState.IDLE ∧
    (updateTimer
        { initialContext with
            state := PomodoroState.IDLE, timerActive := true, secondsRemaining := 1,
            completedSessions := 3 }
        60 60).secondsRemaining = 0 ∧
    (updateTimer
        { initialContext with
            state := PomodoroState.IDLE, timerActive := true, secondsRemaining := 1,
            completedSessions := 3 }
        60 60).timerActive = false ∧
    (updateTimer
        { initialContext with
            state := PomodoroState.IDLE, timerActive := true, secondsRemaining := 1,
            completedSessions := 3 }
        60 60).completedSessions = 3 := by
  have h := C10_idle_expiry
    { initialContext with
        state := PomodoroState.IDLE, timerActive := true, secondsRemaining := 1,
        completedSessions := 3 }
    60 60 (by decide) (by decide) (by decide) (by decide)
  exact ⟨h.1, h.2.1, h.2.2.1, by rw [h.2.2.2.1]⟩
